import Mathlib

/-!
Verification of the core logic of the order-tracking status-page generator
(`server.js`): the business-day calculator, the carrier classifier, the
timeline synthesizer and the pickup-date validator.

Modelling conventions:
* A JavaScript `Date` is a pair of a calendar day number (`day : Int`,
  with day 0 a Sunday, so `getDay` of a date is `day % 7`) and a
  time-of-day in milliseconds (`tod : Int`).  `Date` comparison is the
  lexicographic order on `(day, tod)`.  `setDate(getDate() ± 1)` moves
  `day` by one and keeps `tod`; `setHours(0,0,0,0)` keeps only `day`.
* `Math.random()` is modelled by a stream `g : Nat → Nat`; the call site
  that evaluates the k-th `Math.floor(Math.random() * n)` of a run reads
  `g k % n`, which ranges over exactly the values `0 … n-1` the source
  can produce.  Call sites are numbered in JavaScript evaluation order.
* Display-date formatting (`toLocaleDateString`) is omitted: events carry
  their underlying date, which is what the specification's claims are
  about.  The `time` display string is modelled in full.
-/

namespace Tracking

/-- A JavaScript `Date`: calendar day number plus time of day (ms). -/
structure JSDate where
  day : Int
  tod : Int
deriving DecidableEq, Repr

instance : LE JSDate :=
  ⟨fun a b => a.day < b.day ∨ (a.day = b.day ∧ a.tod ≤ b.tod)⟩

instance : LT JSDate :=
  ⟨fun a b => a.day < b.day ∨ (a.day = b.day ∧ a.tod < b.tod)⟩

instance (a b : JSDate) : Decidable (a ≤ b) :=
  inferInstanceAs (Decidable (a.day < b.day ∨ (a.day = b.day ∧ a.tod ≤ b.tod)))

instance (a b : JSDate) : Decidable (a < b) :=
  inferInstanceAs (Decidable (a.day < b.day ∨ (a.day = b.day ∧ a.tod < b.tod)))

instance : IsTrans JSDate (· ≤ ·) :=
  ⟨fun a b c h1 h2 => by
    have h1' : a.day < b.day ∨ (a.day = b.day ∧ a.tod ≤ b.tod) := h1
    have h2' : b.day < c.day ∨ (b.day = c.day ∧ b.tod ≤ c.tod) := h2
    show a.day < c.day ∨ (a.day = c.day ∧ a.tod ≤ c.tod)
    omega⟩

/-- `Date.prototype.getDay`: 0 = Sunday, …, 6 = Saturday. -/
def getDay (d : Int) : Int := d % 7

/-- The loop guard of both business-day helpers:
`result.getDay() !== 0 && result.getDay() !== 6`. -/
def isBusinessDay (d : Int) : Bool := getDay d != 0 && getDay d != 6

/-- One "counting" pass of the `addBusinessDays` loop: step forward one
calendar day at a time until a non-weekend day is reached.  A weekend run
is at most the two days Saturday/Sunday, so the day reached is `d+1`,
`d+2` or `d+3`. -/
def nextBusinessDay (d : Int) : Int :=
  if isBusinessDay (d + 1) then d + 1
  else if isBusinessDay (d + 2) then d + 2
  else d + 3

/-- One "counting" pass of the `subtractBusinessDays` loop, stepping
backward. -/
def prevBusinessDay (d : Int) : Int :=
  if isBusinessDay (d - 1) then d - 1
  else if isBusinessDay (d - 2) then d - 2
  else d - 3

/-- Day-level core of `addBusinessDays` (server.js:171-184): repeat the
counting pass `days` times. -/
def addBusinessDaysInt (d : Int) : Nat → Int
  | 0 => d
  | n + 1 => addBusinessDaysInt (nextBusinessDay d) n

/-- Day-level core of `subtractBusinessDays` (server.js:155-168). -/
def subtractBusinessDaysInt (d : Int) : Nat → Int
  | 0 => d
  | n + 1 => subtractBusinessDaysInt (prevBusinessDay d) n

/-- `addBusinessDays(date, days)` (server.js:171-184): advance `days`
business days, skipping weekends; time of day is preserved. -/
def addBusinessDays (date : JSDate) (days : Nat) : JSDate :=
  ⟨addBusinessDaysInt date.day days, date.tod⟩

/-- `subtractBusinessDays(date, days)` (server.js:155-168). -/
def subtractBusinessDays (date : JSDate) (days : Nat) : JSDate :=
  ⟨subtractBusinessDaysInt date.day days, date.tod⟩

/-- Number of business days in the half-open day interval `(d, d + m]`;
spec-side measure used to state the business-day counting property. -/
def bdCount (d : Int) : Nat → Nat
  | 0 => 0
  | m + 1 => bdCount d m + (if isBusinessDay (d + (m : Int) + 1) then 1 else 0)

/-! ### Carrier classifier (server.js:529-574) -/

/-- Result shape of `detectCarrierAndGenerateUrl`. -/
structure CarrierInfo where
  carrier : String
  trackingUrl : String
  carrierCode : String
deriving DecidableEq, Repr

/-- UPS rule, regex `^1Z[0-9A-Z]{16}$`. -/
def upsMatch (s : List Char) : Bool :=
  match s with
  | c1 :: c2 :: rest =>
    c1 == '1' && c2 == 'Z' && rest.length == 16 &&
      rest.all (fun c => c.isDigit || c.isUpper)
  | _ => false

/-- The USPS alternation `(94|93|92|91|90|82|81|80|70|23|13|03|04)`. -/
def uspsPrefixOk (c1 c2 : Char) : Bool :=
  (c1 == '9' && (c2 == '4' || c2 == '3' || c2 == '2' || c2 == '1' || c2 == '0')) ||
  (c1 == '8' && (c2 == '2' || c2 == '1' || c2 == '0')) ||
  (c1 == '7' && c2 == '0') ||
  (c1 == '2' && c2 == '3') ||
  (c1 == '1' && c2 == '3') ||
  (c1 == '0' && (c2 == '3' || c2 == '4'))

/-- USPS rule, regex `^(94|93|92|91|90|82|81|80|70|23|13|03|04)\d{18,20}$`. -/
def uspsMatch (s : List Char) : Bool :=
  match s with
  | c1 :: c2 :: rest =>
    uspsPrefixOk c1 c2 && decide (18 ≤ rest.length) && decide (rest.length ≤ 20) &&
      rest.all Char.isDigit
  | _ => false

/-- FedEx rule, regex `^(\d{12}|\d{14}|\d{15}|\d{20}|\d{22})$`. -/
def fedexMatch (s : List Char) : Bool :=
  s.all Char.isDigit &&
    (s.length == 12 || s.length == 14 || s.length == 15 || s.length == 20 ||
      s.length == 22)

/-- DHL rule, regex `^(\d{10}|\d{11})$`. -/
def dhlMatch (s : List Char) : Bool :=
  s.all Char.isDigit && (s.length == 10 || s.length == 11)

/-- Amazon rule, regex `^TBA\d{12}$`. -/
def amazonMatch (s : List Char) : Bool :=
  match s with
  | c1 :: c2 :: c3 :: rest =>
    c1 == 'T' && c2 == 'B' && c3 == 'A' && rest.length == 12 &&
      rest.all Char.isDigit
  | _ => false

/-- `detectCarrierAndGenerateUrl` (server.js:529-574): test the ordered
rule list UPS → USPS → FedEx → DHL → Amazon and return the first match;
otherwise the generic fallback. -/
def detectCarrierAndGenerateUrl (trackingNumber : String) : CarrierInfo :=
  if upsMatch trackingNumber.data then
    { carrier := "UPS",
      trackingUrl := "https://www.ups.com/track?track=yes&trackNums=" ++ trackingNumber,
      carrierCode := "UPS" }
  else if uspsMatch trackingNumber.data then
    { carrier := "USPS",
      trackingUrl := "https://tools.usps.com/go/TrackConfirmAction?tLabels=" ++ trackingNumber,
      carrierCode := "USPS" }
  else if fedexMatch trackingNumber.data then
    { carrier := "FedEx",
      trackingUrl := "https://www.fedex.com/fedextrack/?tracknumber=" ++ trackingNumber,
      carrierCode := "FedEx" }
  else if dhlMatch trackingNumber.data then
    { carrier := "DHL",
      trackingUrl := "https://www.dhl.com/us-en/home/tracking.html?tracking-id=" ++ trackingNumber,
      carrierCode := "DHL" }
  else if amazonMatch trackingNumber.data then
    { carrier := "Amazon Logistics",
      trackingUrl := "https://track.amazon.com/tracking/" ++ trackingNumber,
      carrierCode := "Amazon" }
  else
    { carrier := "Carrier",
      trackingUrl := "https://www.google.com/search?q=track+package+" ++ trackingNumber,
      carrierCode := "UNKNOWN" }

/-! ### Static facility data (server.js:128-147) -/

/-- The `shippingFacilities` table. -/
def shippingFacilities : List (String × List String) :=
  [("CA", ["Los Angeles Distribution Center", "San Francisco Bay Area Facility",
    "Oakland Sorting Facility"]),
   ("NY", ["Queens Distribution Center", "Brooklyn Sorting Facility",
    "Long Island Facility"]),
   ("TX", ["Dallas-Fort Worth Hub", "Houston Distribution Center",
    "Austin Sorting Facility"]),
   ("FL", ["Miami Distribution Center", "Orlando Sorting Facility",
    "Tampa Bay Facility"]),
   ("IL", ["Chicago O\x27Hare Hub", "Rockford Distribution Center",
    "Schaumburg Facility"]),
   ("OH", ["Cincinnati Hub", "Columbus Distribution Center",
    "Cleveland Sorting Facility"]),
   ("PA", ["Philadelphia Distribution Center", "Pittsburgh Sorting Facility",
    "Allentown Hub"]),
   ("GA", ["Atlanta Distribution Center", "Savannah Sorting Facility",
    "Augusta Hub"]),
   ("NC", ["Charlotte Hub", "Raleigh Distribution Center",
    "Greensboro Sorting Facility"]),
   ("WA", ["Seattle Distribution Center", "Spokane Sorting Facility",
    "Tacoma Hub"]),
   ("DEFAULT", ["Regional Distribution Center", "Local Sorting Facility",
    "Area Hub"])]

/-- `shippingFacilities[provinceCode] || shippingFacilities['DEFAULT']`. -/
def lookupStateFacilities (provinceCode : String) : List String :=
  (shippingFacilities.lookup provinceCode).getD
    ((shippingFacilities.lookup "DEFAULT").getD [])

/-- The `majorTransitHubs` list (server.js:143-147). -/
def majorTransitHubs : List String :=
  ["Memphis, TN Hub", "Louisville, KY World Hub", "Indianapolis, IN Hub",
   "Cincinnati, OH Air Hub", "Phoenix, AZ Distribution Center", "Denver, CO Hub",
   "Dallas, TX Hub", "Atlanta, GA Hub", "Chicago, IL Hub", "Los Angeles, CA Hub"]

/-! ### Times (server.js:576-618) -/

/-- `String(minute).padStart(2, '0')`. -/
def formatMinute (m : Nat) : String :=
  if m < 10 then "0" ++ toString m else toString m

/-- `generateRealisticTime(date, status)` (server.js:576-618): one random
hour from the status-specific window, one random minute, rendered on a
12-hour clock.  Consumes the draws at indices `i` (hour) and `i+1`
(minute). -/
def generateRealisticTime (g : Nat → Nat) (i : Nat) (status : String) : String :=
  let hour : Nat :=
    if status == "Order Confirmed" || status == "Order Processed" then g i % 8 + 9
    else if status == "Package Picked Up" || status == "Label Created" then g i % 4 + 6
    else if status == "Out for Delivery" then g i % 3 + 8
    else if status == "Delivered" then g i % 8 + 10
    else g i % 24
  let minute := g (i + 1) % 60
  if hour > 12 then toString (hour - 12) ++ ":" ++ formatMinute minute ++ " PM"
  else if hour == 12 then toString hour ++ ":" ++ formatMinute minute ++ " PM"
  else if hour == 0 then "12:" ++ formatMinute minute ++ " AM"
  else toString hour ++ ":" ++ formatMinute minute ++ " AM"

/-! ### Timeline synthesizer (server.js:331-526) -/

/-- A Shopify fulfillment record, as consumed by the synthesizer.  A JS
falsy `tracking_number` (absent or empty) is `none`. -/
structure Fulfillment where
  tracking_number : Option String
  tracking_numbers : List String
  created_at : JSDate
deriving DecidableEq, Repr

/-- The `find` predicate `f => f.tracking_number || f.tracking_numbers?.length > 0`. -/
def hasTrackingInfo (f : Fulfillment) : Bool :=
  f.tracking_number.isSome || f.tracking_numbers.length > 0

/-- Timestamp of a date in milliseconds. -/
def msOf (d : JSDate) : Int := d.day * 86400000 + d.tod

/-- `Math.floor((fulfillmentDate - orderDateObj) / (1000*60*60*24))`. -/
def daysBetweenOrderAndFulfillment (fulfillmentDate orderDateObj : JSDate) : Int :=
  Int.fdiv (msOf fulfillmentDate - msOf orderDateObj) 86400000

/-- `getRandomBusinessDaysInterval()` (server.js:187-189): a value in 3-5. -/
def getRandomBusinessDaysInterval (g : Nat → Nat) (i : Nat) : Nat := g i % 3 + 3

/-- A synthesized tracking event.  `date` is the underlying event date
(display formatting omitted). -/
structure TrackingEvent where
  status : String
  date : JSDate
  time : String
  location : Option String
  completed : Bool
  current : Bool
  isDelivered : Bool
  isCustomPickup : Bool
deriving DecidableEq, Repr

/-- One entry of the `eventTemplates` array (server.js:400-451). -/
structure EventTemplate where
  status : String
  location : Option String
  fixedDate : Option JSDate
  businessDaysFromPrevious : Option Nat
deriving DecidableEq, Repr

/-- The date-calculation block of `generateRealisticTrackingEventsWithFulfillment`
(server.js:354-397): returns the computed `labelCreatedDate`,
`packagePickupDate`, and the next unused random-draw index (the block runs
after the draw at index 0, the destination-facility pick). -/
def computeLabelPickup (g : Nat → Nat) (orderDateObj : JSDate)
    (fulfillments : List Fulfillment) (customPickupDate : Option JSDate) :
    JSDate × JSDate × Nat :=
  match customPickupDate with
  | some c =>
    let labelCreatedDate := c
    let packagePickupDate := addBusinessDays labelCreatedDate (g 1 % 2 + 1)
    if labelCreatedDate ≤ orderDateObj then
      let l2 := addBusinessDays orderDateObj 1
      (l2, addBusinessDays l2 1, 2)
    else
      (labelCreatedDate, packagePickupDate, 2)
  | none =>
    let labelCreatedDate := addBusinessDays orderDateObj (g 1 % 3 + 1)
    let packagePickupDate := addBusinessDays labelCreatedDate (g 2 % 2 + 1)
    match fulfillments.find? hasTrackingInfo with
    | some shipmentFulfillment =>
      let fulfillmentDate := shipmentFulfillment.created_at
      let daysBetween := daysBetweenOrderAndFulfillment fulfillmentDate orderDateObj
      if 0 < daysBetween ∧ daysBetween < 30 then
        let p2 := subtractBusinessDays fulfillmentDate 1
        let l2 := subtractBusinessDays p2 (g 3 % 2 + 1)
        if l2 ≤ orderDateObj then
          let l3 := addBusinessDays orderDateObj 1
          (l3, addBusinessDays l3 1, 4)
        else (l2, p2, 4)
      else (labelCreatedDate, packagePickupDate, 3)
    | none => (labelCreatedDate, packagePickupDate, 3)

/-- The `eventTemplates` array (server.js:400-451), built with the draws
at indices `j0 … j0+5` (Order Processed offset, then the five 3-5
business-day intervals). -/
def eventTemplates (g : Nat → Nat) (j0 : Nat)
    (orderConfirmedDate labelCreatedDate packagePickupDate : JSDate)
    (destinationFacility destinationCity provinceCode : String) :
    List EventTemplate :=
  [{ status := "Order Confirmed", location := some "Order Processing Center",
     fixedDate := some orderConfirmedDate, businessDaysFromPrevious := none },
   { status := "Order Processed", location := some "Fulfillment Center",
     fixedDate := some (addBusinessDays orderConfirmedDate (g j0 % 2 + 1)),
     businessDaysFromPrevious := none },
   { status := "Label Created", location := some "Origin Facility",
     fixedDate := some labelCreatedDate, businessDaysFromPrevious := none },
   { status := "Package Picked Up", location := some "Local Pickup Facility",
     fixedDate := some packagePickupDate, businessDaysFromPrevious := none },
   { status := "Departed Origin Facility", location := some "Origin Facility",
     fixedDate := none, businessDaysFromPrevious := some 1 },
   { status := "In Transit", location := none, fixedDate := none,
     businessDaysFromPrevious := some (getRandomBusinessDaysInterval g (j0 + 1)) },
   { status := "Arrived at Sorting Facility", location := none, fixedDate := none,
     businessDaysFromPrevious := some (getRandomBusinessDaysInterval g (j0 + 2)) },
   { status := "Departed Sorting Facility", location := none, fixedDate := none,
     businessDaysFromPrevious := some (getRandomBusinessDaysInterval g (j0 + 3)) },
   { status := "Arrived at Destination Facility", location := some destinationFacility,
     fixedDate := none,
     businessDaysFromPrevious := some (getRandomBusinessDaysInterval g (j0 + 4)) },
   { status := "Out for Delivery",
     location := some (destinationCity ++ ", " ++ provinceCode),
     fixedDate := none,
     businessDaysFromPrevious := some (getRandomBusinessDaysInterval g (j0 + 5)) }]

/-- The event-loop date update (server.js:459-465): a fixed date replaces
the running date; otherwise, for `i > 0`, advance by the template's
business-day offset. -/
def nextEventDate (t : EventTemplate) (i : Nat) (cur : JSDate) : JSDate :=
  match t.fixedDate with
  | some f => f
  | none => if 0 < i then addBusinessDays cur (t.businessDaysFromPrevious.getD 0) else cur

/-- `String.prototype.includes` on char lists. -/
def listContainsSub (sub : List Char) : List Char → Bool
  | [] => sub.isEmpty
  | c :: t => sub.isPrefixOf (c :: t) || listContainsSub sub t

/-- `s.includes(sub)`. -/
def includesStr (s sub : String) : Bool := listContainsSub sub.data s.data

/-- The event emission loop (server.js:456-498).  `i` is the template
index, `j` the next random-draw index, `cur` the running
`currentEventDate`.  Stops at the first computed date strictly after
`today`; each emitted event consumes one location draw (null-location
templates only) and two time draws.  Returns the events together with the
next unused draw index. -/
def buildEvents (g : Nat → Nat) (today : JSDate) (stateFacilities : List String)
    (hasCustomPickup : Bool) :
    List EventTemplate → Nat → Nat → JSDate → List TrackingEvent × Nat
  | [], _, j, _ => ([], j)
  | t :: ts, i, j, cur =>
    let cur2 := nextEventDate t i cur
    if today < cur2 then ([], j)
    else
      let locDraw : Option String × Nat :=
        match t.location with
        | some l => (some l, j)
        | none =>
          if includesStr t.status "Transit" then
            (some (majorTransitHubs.getD (g j % majorTransitHubs.length) ""), j + 1)
          else if includesStr t.status "Sorting" then
            (some (stateFacilities.getD (g j % stateFacilities.length) ""), j + 1)
          else (none, j)
      let ev : TrackingEvent :=
        { status := t.status, date := cur2,
          time := generateRealisticTime g locDraw.2 t.status,
          location := locDraw.1, completed := true, current := false,
          isDelivered := false,
          isCustomPickup := t.status == "Package Picked Up" && hasCustomPickup }
      let rest := buildEvents g today stateFacilities hasCustomPickup ts (i + 1)
        (locDraw.2 + 2) cur2
      (ev :: rest.1, rest.2)

/-- server.js:500-504: demote the last emitted event to the in-flight
marker (`current = true, completed = false`). -/
def markLastCurrent : List TrackingEvent → List TrackingEvent
  | [] => []
  | [e] => [{ e with current := true, completed := false }]
  | e :: e2 :: es => e :: markLastCurrent (e2 :: es)

/-- The truncated event list of a synthesizer run, before the
current-marking and Delivered steps (server.js:332-498), together with
the next unused random-draw index. -/
def builtEvents (g : Nat → Nat) (today orderDate : JSDate)
    (destinationCity provinceCode : String) (fulfillments : List Fulfillment)
    (customPickupDate : Option JSDate) : List TrackingEvent × Nat :=
  let stateFacilities := lookupStateFacilities provinceCode
  let destinationFacility := stateFacilities.getD (g 0 % stateFacilities.length) ""
  let lp := computeLabelPickup g orderDate fulfillments customPickupDate
  buildEvents g today stateFacilities customPickupDate.isSome
    (eventTemplates g lp.2.2 orderDate lp.1 lp.2.1 destinationFacility
      destinationCity provinceCode) 0 (lp.2.2 + 6) orderDate

/-- The synthesized terminal Delivered event (server.js:506-523): carries
the authoritative delivery timestamp verbatim. -/
def deliveredEvent (g : Nat → Nat) (j : Nat) (destinationCity provinceCode : String)
    (actualDeliveryDate : JSDate) : TrackingEvent :=
  { status := "Delivered", date := actualDeliveryDate,
    time := generateRealisticTime g j "Delivered",
    location := some (destinationCity ++ ", " ++ provinceCode),
    completed := true, current := false, isDelivered := true,
    isCustomPickup := false }

/-- `generateRealisticTrackingEventsWithFulfillment` (server.js:331-526).
`today` is the synthesis moment (`new Date()`). -/
def generateRealisticTrackingEventsWithFulfillment (g : Nat → Nat) (today : JSDate)
    (orderDate : JSDate) (destinationCity provinceCode : String) (isDelivered : Bool)
    (deliveryDate : Option JSDate) (fulfillments : List Fulfillment)
    (customPickupDate : Option JSDate) : List TrackingEvent :=
  let built := builtEvents g today orderDate destinationCity provinceCode fulfillments
    customPickupDate
  let events :=
    if built.1.length > 0 && !isDelivered then markLastCurrent built.1 else built.1
  match isDelivered, deliveryDate with
  | true, some actualDeliveryDate =>
    events ++ [deliveredEvent g built.2 destinationCity provinceCode actualDeliveryDate]
  | _, _ => events

/-- The sequence of per-template computed dates, paired with statuses:
the values `currentEventDate` takes in the loop of server.js:456-465,
before future-date truncation. -/
def computedPairs : List EventTemplate → Nat → JSDate → List (String × JSDate)
  | [], _, _ => []
  | t :: ts, i, cur =>
    let cur2 := nextEventDate t i cur
    (t.status, cur2) :: computedPairs ts (i + 1) cur2

/-- Statuses and computed dates of the full (untruncated) event plan of a
synthesizer run. -/
def plannedPairs (g : Nat → Nat) (orderDate : JSDate)
    (destinationCity provinceCode : String) (fulfillments : List Fulfillment)
    (customPickupDate : Option JSDate) : List (String × JSDate) :=
  let stateFacilities := lookupStateFacilities provinceCode
  let lp := computeLabelPickup g orderDate fulfillments customPickupDate
  computedPairs
    (eventTemplates g lp.2.2 orderDate lp.1 lp.2.1
      (stateFacilities.getD (g 0 % stateFacilities.length) "") destinationCity
      provinceCode) 0 orderDate

/-- The full (untruncated) list of computed event dates of a synthesizer
run. -/
def plannedDates (g : Nat → Nat) (orderDate : JSDate)
    (destinationCity provinceCode : String) (fulfillments : List Fulfillment)
    (customPickupDate : Option JSDate) : List JSDate :=
  (plannedPairs g orderDate destinationCity provinceCode fulfillments
    customPickupDate).map (fun q => q.2)

/-! ### Pickup-date validator (server.js:805-850)

`validatePickupDate` compares at day granularity and computes
`oneYearFromNow` / `twoYearsAgo` with `setFullYear`, i.e. proleptic
Gregorian calendar-year arithmetic on the day number (a Feb 29 source
date normalizes to Mar 1 in a non-leap target year, exactly as
`setFullYear` does). -/

/-- Gregorian civil date `(year, month, day)` of a day number
(days since 1970-01-01). -/
def civilFromDays (z0 : Int) : Int × Int × Int :=
  let z := z0 + 719468
  let era := Int.fdiv z 146097
  let doe := z - era * 146097
  let yoe := Int.fdiv (doe - Int.fdiv doe 1460 + Int.fdiv doe 36524 - Int.fdiv doe 146096) 365
  let y := yoe + era * 400
  let doy := doe - (365 * yoe + Int.fdiv yoe 4 - Int.fdiv yoe 100)
  let mp := Int.fdiv (5 * doy + 2) 153
  let d := doy - Int.fdiv (153 * mp + 2) 5 + 1
  let m := mp + (if mp < 10 then 3 else -9)
  (y + (if m ≤ 2 then 1 else 0), m, d)

/-- Day number of a Gregorian civil date. -/
def daysFromCivil (y0 m d : Int) : Int :=
  let y := y0 - (if m ≤ 2 then 1 else 0)
  let era := Int.fdiv y 400
  let yoe := y - era * 400
  let mp := (m + 9) % 12
  let doy := Int.fdiv (153 * mp + 2) 5 + d - 1
  let doe := yoe * 365 + Int.fdiv yoe 4 - Int.fdiv yoe 100 + doy
  era * 146097 + doe - 719468

/-- `date.setFullYear(date.getFullYear() + k)` at day granularity. -/
def setFullYearShift (day : Int) (k : Int) : Int :=
  let c := civilFromDays day
  daysFromCivil (c.1 + k) c.2.1 c.2.2

/-- Result of `validatePickupDate`: `{ isValid }` or `{ isValid, error }`. -/
structure ValidationResult where
  isValid : Bool
  error : Option String
deriving DecidableEq, Repr

/-- `validatePickupDate(pickupDate, orderCreatedAt)` (server.js:805-850);
`today` is `new Date()`.  All three checks compare at day granularity
(`setHours(0,0,0,0)`).  The interpolated dates of the first message are
omitted from the modelled error string. -/
def validatePickupDate (today : JSDate) (pickupDate : Option JSDate)
    (orderCreatedAt : JSDate) : ValidationResult :=
  match pickupDate with
  | none => { isValid := true, error := none }
  | some p =>
    if p.day < orderCreatedAt.day then
      { isValid := false,
        error := some "Pickup date cannot be before the order creation date. Packages cannot be picked up before they are ordered." }
    else if p.day > setFullYearShift today.day 1 then
      { isValid := false,
        error := some "Pickup date cannot be more than 1 year in the future." }
    else if p.day < setFullYearShift today.day (-2) then
      { isValid := false,
        error := some "Pickup date cannot be more than 2 years in the past." }
    else { isValid := true, error := none }

/-! ### The create-status-page operation (server.js:853-983)

Only the pure core after the two Shopify fetches is modelled: tracking
number matching, pickup-date validation, carrier detection, event
synthesis and assembly of the stored page data.  An `Except.error` is a
rejected request (HTTP 400): no page is produced or stored. -/

/-- The replacement-tracking metafield: `value` and `updated_at`. -/
structure ReplacementMeta where
  value : String
  updated_at : JSDate
deriving DecidableEq, Repr

/-- The order fields the operation reads. -/
structure OrderData where
  createdAt : JSDate
  city : String
  provinceCode : String
  isDelivered : Bool
  deliveryDate : Option JSDate
  fulfillments : List Fulfillment
deriving DecidableEq, Repr

/-- The stored page fields relevant to the claims (cosmetic fields such
as customer name and timestamps omitted). -/
structure StatusPageData where
  trackingNumber : String
  carrier : String
  carrierCode : String
  trackingUrl : String
  events : List TrackingEvent
  customPickupDate : Option JSDate
  isReplacementTracking : Bool
  saved : Bool
deriving DecidableEq, Repr

/-- `getMainTrackingNumber(order)` (server.js:316-328). -/
def getMainTrackingNumber : List Fulfillment → Option String
  | [] => none
  | f :: fs =>
    match f.tracking_number with
    | some t => some t
    | none =>
      if f.tracking_numbers.length > 0 then f.tracking_numbers.head?
      else getMainTrackingNumber fs

/-- The three-way tracking-number match (server.js:884-900):
`some (isReplacementTracking, labelCreatedDate)` on a match, `none` when
the number matches neither record. -/
def replacementMatch (meta : Option ReplacementMeta) (mainTracking : Option String)
    (trackingNumber : String) : Option (Bool × Option JSDate) :=
  match meta with
  | some m =>
    if trackingNumber == m.value then some (true, some m.updated_at)
    else
      match mainTracking with
      | some t => if trackingNumber == t then some (false, none) else none
      | none => none
  | none =>
    match mainTracking with
    | some t => if trackingNumber == t then some (false, none) else none
    | none => none

/-- The pure core of `POST /api/create-status-page` (server.js:878-951),
after the order and metafield fetches succeeded. -/
def createStatusPageCore (g : Nat → Nat) (today : JSDate) (order : OrderData)
    (replacementMeta : Option ReplacementMeta) (trackingNumber : String)
    (pickupDate : Option JSDate) : Except String StatusPageData :=
  let mainTrackingNumber := getMainTrackingNumber order.fulfillments
  match replacementMatch replacementMeta mainTrackingNumber trackingNumber with
  | none =>
    Except.error ("Tracking number \"" ++ trackingNumber ++
      "\" does not match the order. Please verify the tracking number and try again.")
  | some (isReplacementTracking, labelCreatedDate) =>
    let effectivePickupDate :=
      if isReplacementTracking && labelCreatedDate.isSome then labelCreatedDate
      else pickupDate
    let pickupValidation := validatePickupDate today effectivePickupDate order.createdAt
    if pickupValidation.isValid = false then
      Except.error (pickupValidation.error.getD "")
    else
      let carrierInfo := detectCarrierAndGenerateUrl trackingNumber
      let trackingEvents := generateRealisticTrackingEventsWithFulfillment g today
        order.createdAt order.city order.provinceCode order.isDelivered
        order.deliveryDate order.fulfillments effectivePickupDate
      Except.ok
        { trackingNumber := trackingNumber,
          carrier := carrierInfo.carrier,
          carrierCode := carrierInfo.carrierCode,
          trackingUrl := carrierInfo.trackingUrl,
          events := trackingEvents,
          customPickupDate := effectivePickupDate,
          isReplacementTracking := isReplacementTracking,
          saved := false }

/-! ## Theorems -/

theorem JSDate.le_def (a b : JSDate) :
    a ≤ b ↔ (a.day < b.day ∨ (a.day = b.day ∧ a.tod ≤ b.tod)) := Iff.rfl

theorem JSDate.lt_def (a b : JSDate) :
    a < b ↔ (a.day < b.day ∨ (a.day = b.day ∧ a.tod < b.tod)) := Iff.rfl

theorem JSDate.not_lt {a b : JSDate} : ¬(a < b) ↔ b ≤ a := by
  rw [JSDate.lt_def, JSDate.le_def]; omega

theorem JSDate.not_le {a b : JSDate} : ¬(a ≤ b) ↔ b < a := by
  rw [JSDate.lt_def, JSDate.le_def]; omega

theorem JSDate.le_trans {a b c : JSDate} (h1 : a ≤ b) (h2 : b ≤ c) : a ≤ c := by
  rw [JSDate.le_def] at *; omega

theorem isBusinessDay_iff {d : Int} :
    isBusinessDay d = true ↔ ¬(d % 7 = 0) ∧ ¬(d % 7 = 6) := by
  simp [isBusinessDay, getDay]

theorem nextBusinessDay_gt (d : Int) : d < nextBusinessDay d := by
  unfold nextBusinessDay
  split
  · omega
  split
  · omega
  · omega

theorem prevBusinessDay_lt (d : Int) : prevBusinessDay d < d := by
  unfold prevBusinessDay
  split
  · omega
  split
  · omega
  · omega

theorem nextBusinessDay_isBusinessDay (d : Int) :
    isBusinessDay (nextBusinessDay d) = true := by
  unfold nextBusinessDay
  split
  · assumption
  split
  · assumption
  next h1 h2 =>
    rw [isBusinessDay_iff] at h1 h2 ⊢
    omega

theorem prevBusinessDay_isBusinessDay (d : Int) :
    isBusinessDay (prevBusinessDay d) = true := by
  unfold prevBusinessDay
  split
  · assumption
  split
  · assumption
  next h1 h2 =>
    rw [isBusinessDay_iff] at h1 h2 ⊢
    omega

theorem addBusinessDaysInt_le (d : Int) (n : Nat) : d ≤ addBusinessDaysInt d n := by
  induction n generalizing d with
  | zero => simp [addBusinessDaysInt]
  | succ n ih =>
    have h1 := nextBusinessDay_gt d
    have h2 := ih (nextBusinessDay d)
    show d ≤ addBusinessDaysInt (nextBusinessDay d) n
    omega

theorem subtractBusinessDaysInt_le (d : Int) (n : Nat) :
    subtractBusinessDaysInt d n ≤ d := by
  induction n generalizing d with
  | zero => simp [subtractBusinessDaysInt]
  | succ n ih =>
    have h1 := prevBusinessDay_lt d
    have h2 := ih (prevBusinessDay d)
    show subtractBusinessDaysInt (prevBusinessDay d) n ≤ d
    omega

theorem addBusinessDaysInt_preserve (d : Int) (n : Nat)
    (h : isBusinessDay d = true) : isBusinessDay (addBusinessDaysInt d n) = true := by
  induction n generalizing d with
  | zero => simpa [addBusinessDaysInt] using h
  | succ n ih =>
    show isBusinessDay (addBusinessDaysInt (nextBusinessDay d) n) = true
    exact ih _ (nextBusinessDay_isBusinessDay d)

theorem subtractBusinessDaysInt_preserve (d : Int) (n : Nat)
    (h : isBusinessDay d = true) :
    isBusinessDay (subtractBusinessDaysInt d n) = true := by
  induction n generalizing d with
  | zero => simpa [subtractBusinessDaysInt] using h
  | succ n ih =>
    show isBusinessDay (subtractBusinessDaysInt (prevBusinessDay d) n) = true
    exact ih _ (prevBusinessDay_isBusinessDay d)

theorem addBusinessDaysInt_pos_isBusinessDay (d : Int) (n : Nat) (h : 1 ≤ n) :
    isBusinessDay (addBusinessDaysInt d n) = true := by
  match n, h with
  | n + 1, _ =>
    show isBusinessDay (addBusinessDaysInt (nextBusinessDay d) n) = true
    exact addBusinessDaysInt_preserve _ _ (nextBusinessDay_isBusinessDay d)

theorem subtractBusinessDaysInt_pos_isBusinessDay (d : Int) (n : Nat) (h : 1 ≤ n) :
    isBusinessDay (subtractBusinessDaysInt d n) = true := by
  match n, h with
  | n + 1, _ =>
    show isBusinessDay (subtractBusinessDaysInt (prevBusinessDay d) n) = true
    exact subtractBusinessDaysInt_preserve _ _ (prevBusinessDay_isBusinessDay d)

theorem addBusinessDaysInt_succ_right (d : Int) (n : Nat) :
    addBusinessDaysInt d (n + 1) = nextBusinessDay (addBusinessDaysInt d n) := by
  induction n generalizing d with
  | zero => rfl
  | succ n ih =>
    show addBusinessDaysInt (nextBusinessDay d) (n + 1)
        = nextBusinessDay (addBusinessDaysInt (nextBusinessDay d) n)
    exact ih (nextBusinessDay d)

/-- If `d` is a business day, stepping back to the previous business day
then forward to the next returns to `d`. -/
theorem nextBusinessDay_prevBusinessDay (d : Int) (h : isBusinessDay d = true) :
    nextBusinessDay (prevBusinessDay d) = d := by
  unfold prevBusinessDay
  split
  next h1 =>
    unfold nextBusinessDay
    rw [show d - 1 + 1 = d by ring]
    simp [h]
  split
  next h1 h2 =>
    unfold nextBusinessDay
    rw [show d - 2 + 1 = d - 1 by ring, show d - 2 + 2 = d by ring]
    simp only [h1, if_false]
    simp [h]
  next h1 h2 =>
    unfold nextBusinessDay
    rw [show d - 3 + 1 = d - 2 by ring, show d - 3 + 2 = d - 1 by ring,
      show d - 3 + 3 = d by ring]
    simp [h1, h2]

theorem bdCount_add (d : Int) (a b : Nat) :
    bdCount d (a + b) = bdCount d a + bdCount (d + (a : Int)) b := by
  induction b with
  | zero => simp [bdCount]
  | succ b ih =>
    show bdCount d ((a + b) + 1) = _
    rw [bdCount, ih]
    have harg : d + ((a + b : Nat) : Int) + 1 = (d + (a : Int)) + (b : Int) + 1 := by
      push_cast; ring
    rw [harg]
    rw [bdCount]
    omega

theorem bdCount_nextBusinessDay (d : Int) :
    bdCount d (nextBusinessDay d - d).toNat = 1 := by
  have e1 : bdCount d 1 = (if isBusinessDay (d + 1) then 1 else 0) := by
    show bdCount d 0 + (if isBusinessDay (d + ((0 : Nat) : Int) + 1) then 1 else 0) = _
    norm_num [bdCount]
  have e2 : bdCount d 2 = bdCount d 1 + (if isBusinessDay (d + 2) then 1 else 0) := by
    show bdCount d 1 + (if isBusinessDay (d + ((1 : Nat) : Int) + 1) then 1 else 0) = _
    norm_num
    rw [show d + 1 + 1 = d + 2 by ring]
  have e3 : bdCount d 3 = bdCount d 2 + (if isBusinessDay (d + 3) then 1 else 0) := by
    show bdCount d 2 + (if isBusinessDay (d + ((2 : Nat) : Int) + 1) then 1 else 0) = _
    norm_num
    rw [show d + 2 + 1 = d + 3 by ring]
  unfold nextBusinessDay
  split
  next h1 =>
    rw [show (d + 1 - d).toNat = 1 by omega, e1]
    simp [h1]
  split
  next h1 h2 =>
    rw [show (d + 2 - d).toNat = 2 by omega, e2, e1]
    simp [h1, h2]
  next h1 h2 =>
    have h3 : isBusinessDay (d + 3) = true := by
      rw [isBusinessDay_iff] at h1 h2 ⊢
      omega
    rw [show (d + 3 - d).toNat = 3 by omega, e3, e2, e1]
    simp [h1, h2, h3]

/-- The count of business days strictly after `d` up to and including
`addBusinessDaysInt d n` is exactly `n`. -/
theorem bdCount_addBusinessDaysInt (n : Nat) (d : Int) :
    bdCount d (addBusinessDaysInt d n - d).toNat = n := by
  induction n generalizing d with
  | zero => simp [addBusinessDaysInt, bdCount]
  | succ n ih =>
    have h1 : d < nextBusinessDay d := nextBusinessDay_gt d
    have h2 : nextBusinessDay d ≤ addBusinessDaysInt (nextBusinessDay d) n :=
      addBusinessDaysInt_le _ _
    show bdCount d (addBusinessDaysInt (nextBusinessDay d) n - d).toNat = n + 1
    have key : (addBusinessDaysInt (nextBusinessDay d) n - d).toNat
        = (nextBusinessDay d - d).toNat
          + (addBusinessDaysInt (nextBusinessDay d) n - nextBusinessDay d).toNat := by
      omega
    rw [key, bdCount_add]
    have hde : d + (((nextBusinessDay d - d).toNat : Nat) : Int) = nextBusinessDay d := by
      omega
    rw [hde, bdCount_nextBusinessDay, ih]
    omega

/-- The round trip of the two business-day helpers at day level, for a
business-day starting point. -/
theorem addSub_roundTrip (n : Nat) (d : Int) (h : isBusinessDay d = true) :
    addBusinessDaysInt (subtractBusinessDaysInt d n) n = d := by
  induction n generalizing d with
  | zero => rfl
  | succ n ih =>
    show addBusinessDaysInt (subtractBusinessDaysInt (prevBusinessDay d) n) (n + 1) = d
    rw [addBusinessDaysInt_succ_right]
    rw [ih (prevBusinessDay d) (prevBusinessDay_isBusinessDay d)]
    exact nextBusinessDay_prevBusinessDay d h

/-! ### Claims C5, C10, C6 -/

/-- C5 (counterexample): the claim fails at `n = 0` with a Saturday
input: `addBusinessDays` returns the input date unchanged, which falls on
a Saturday (`getDay = 6`). -/
theorem C5_counterexample :
    getDay (addBusinessDays { day := 6, tod := 0 } 0).day = 6 ∧
      addBusinessDays { day := 6, tod := 0 } 0 = { day := 6, tod := 0 } := by
  constructor
  · decide
  · rfl

/-- C5 (amended): for `n ≥ 1`, `addBusinessDays(d, n)` never lands on a
Saturday or Sunday (for `n = 0` it returns the input unchanged, weekend
or not), and for every `n ≥ 0` the number of business days strictly after
`d` up to and including the result is exactly `n`. -/
theorem C5_addBusinessDays_spec (d : JSDate) (n : Nat) :
    (1 ≤ n → isBusinessDay (addBusinessDays d n).day = true) ∧
    bdCount d.day ((addBusinessDays d n).day - d.day).toNat = n ∧
    addBusinessDays d 0 = d :=
  ⟨fun h => addBusinessDaysInt_pos_isBusinessDay d.day n h,
   bdCount_addBusinessDaysInt n d.day, rfl⟩

theorem C5_addBusinessDays_spec_witness :
    (1 : Nat) ≤ 1 ∧ isBusinessDay (addBusinessDays { day := 5, tod := 0 } 1).day = true :=
  ⟨by decide, (C5_addBusinessDays_spec { day := 5, tod := 0 } 1).1 (by decide)⟩

/-- C10: `subtractBusinessDays(d, n)` never lands on a Saturday or Sunday
for `n ≥ 1`, and returns the input unchanged for `n = 0`. -/
theorem C10_subtractBusinessDays_spec (d : JSDate) (n : Nat) :
    (1 ≤ n → isBusinessDay (subtractBusinessDays d n).day = true) ∧
    subtractBusinessDays d 0 = d :=
  ⟨fun h => subtractBusinessDaysInt_pos_isBusinessDay d.day n h, rfl⟩

theorem C10_subtractBusinessDays_spec_witness :
    (1 : Nat) ≤ 1 ∧
      isBusinessDay (subtractBusinessDays { day := 6, tod := 0 } 1).day = true :=
  ⟨by decide, (C10_subtractBusinessDays_spec { day := 6, tod := 0 } 1).1 (by decide)⟩

/-- C6: on a business-day date `d`, `addBusinessDays` and
`subtractBusinessDays` are exact inverses:
`addBusinessDays(subtractBusinessDays(d, n), n) = d`. -/
theorem C6_roundTrip (d : JSDate) (n : Nat) (h : isBusinessDay d.day = true) :
    addBusinessDays (subtractBusinessDays d n) n = d := by
  obtain ⟨dd, dt⟩ := d
  show (⟨addBusinessDaysInt (subtractBusinessDaysInt dd n) n, dt⟩ : JSDate) = _
  rw [addSub_roundTrip n dd h]

theorem C6_roundTrip_witness :
    isBusinessDay ({ day := 1, tod := 0 } : JSDate).day = true ∧
      addBusinessDays (subtractBusinessDays { day := 1, tod := 0 } 2) 2
        = { day := 1, tod := 0 } :=
  ⟨by decide, C6_roundTrip { day := 1, tod := 0 } 2 (by decide)⟩

/-! ### Claim C4 -/

theorem upsMatch_false_of_length {l : List Char} (h : l.length ≠ 18) :
    upsMatch l = false := by
  rcases l with _ | ⟨c1, _ | ⟨c2, rest⟩⟩
  · rfl
  · rfl
  · have hr : rest.length ≠ 16 := by
      simp only [List.length_cons] at h
      omega
    cases h16 : (rest.length == 16) with
    | false => simp [upsMatch, h16]
    | true => exact absurd (by simpa using h16) hr

theorem uspsMatch_false_of_length_lt {l : List Char} (h : l.length < 20) :
    uspsMatch l = false := by
  rcases l with _ | ⟨c1, _ | ⟨c2, rest⟩⟩
  · rfl
  · rfl
  · have hr : ¬(18 ≤ rest.length) := by
      simp only [List.length_cons] at h
      omega
    simp [uspsMatch, hr]

theorem fedexMatch_true_of_digits14 {l : List Char} (hd : l.all Char.isDigit = true)
    (hl : l.length = 14) : fedexMatch l = true := by
  simp [fedexMatch, hd, hl]

theorem upsMatch_false_of_usps {l : List Char} (h : uspsMatch l = true) :
    upsMatch l = false := by
  rcases l with _ | ⟨c1, _ | ⟨c2, rest⟩⟩
  · simp [uspsMatch] at h
  · simp [uspsMatch] at h
  · simp only [uspsMatch, Bool.and_eq_true, decide_eq_true_eq] at h
    obtain ⟨⟨⟨_, h18⟩, _⟩, _⟩ := h
    exact upsMatch_false_of_length (by simp only [List.length_cons]; omega)

/-- C4: `detectCarrierAndGenerateUrl` implements the ordered rule list
UPS → USPS → FedEx → DHL → Amazon with first-match semantics: any
UPS-pattern string classifies as carrierCode UPS; a purely numeric
14-digit string classifies as FedEx; a string matching both the USPS and
FedEx shapes classifies as USPS (USPS is tested first); a string matching
no rule yields carrier "Carrier", carrierCode "UNKNOWN" and the Google
search fallback URL embedding the tracking number.  Totality holds by
construction (the function is a total Lean function). -/
theorem C4_detectCarrier_spec (s : String) :
    (upsMatch s.data = true → (detectCarrierAndGenerateUrl s).carrierCode = "UPS") ∧
    (s.data.all Char.isDigit = true → s.data.length = 14 →
      (detectCarrierAndGenerateUrl s).carrierCode = "FedEx") ∧
    (uspsMatch s.data = true → fedexMatch s.data = true →
      (detectCarrierAndGenerateUrl s).carrierCode = "USPS") ∧
    (upsMatch s.data = false → uspsMatch s.data = false → fedexMatch s.data = false →
      dhlMatch s.data = false → amazonMatch s.data = false →
      detectCarrierAndGenerateUrl s =
        { carrier := "Carrier",
          trackingUrl := "https://www.google.com/search?q=track+package+" ++ s,
          carrierCode := "UNKNOWN" }) := by
  refine ⟨?_, ?_, ?_, ?_⟩
  · intro h
    simp [detectCarrierAndGenerateUrl, h]
  · intro hd hl
    have hups : upsMatch s.data = false := upsMatch_false_of_length (by omega)
    have husps : uspsMatch s.data = false := uspsMatch_false_of_length_lt (by omega)
    have hfed : fedexMatch s.data = true := fedexMatch_true_of_digits14 hd hl
    simp [detectCarrierAndGenerateUrl, hups, husps, hfed]
  · intro hu hf
    have hups : upsMatch s.data = false := upsMatch_false_of_usps hu
    simp [detectCarrierAndGenerateUrl, hups, hu]
  · intro h1 h2 h3 h4 h5
    simp [detectCarrierAndGenerateUrl, h1, h2, h3, h4, h5]

theorem C4_detectCarrier_spec_witness :
    upsMatch ("1Z12345E0205271688" : String).data = true ∧
      (detectCarrierAndGenerateUrl "1Z12345E0205271688").carrierCode = "UPS" :=
  ⟨by decide, (C4_detectCarrier_spec "1Z12345E0205271688").1 (by decide)⟩

/-! ### Synthesizer lemmas -/

theorem addBusinessDays_self_le (d : JSDate) (n : Nat) : d ≤ addBusinessDays d n := by
  have h := addBusinessDaysInt_le d.day n
  rw [JSDate.le_def]
  simp only [addBusinessDays]
  omega

theorem subtractBusinessDays_le_self (d : JSDate) (n : Nat) :
    subtractBusinessDays d n ≤ d := by
  have h := subtractBusinessDaysInt_le d.day n
  rw [JSDate.le_def]
  simp only [subtractBusinessDays]
  omega

/-- The computed `labelCreatedDate` never exceeds the computed
`packagePickupDate`, in every branch of the date-calculation block. -/
theorem computeLabelPickup_le (g : Nat → Nat) (o : JSDate)
    (fuls : List Fulfillment) (custom : Option JSDate) :
    (computeLabelPickup g o fuls custom).1 ≤ (computeLabelPickup g o fuls custom).2.1 := by
  cases custom with
  | some c =>
    simp only [computeLabelPickup]
    split
    · exact addBusinessDays_self_le _ _
    · exact addBusinessDays_self_le _ _
  | none =>
    simp only [computeLabelPickup]
    cases fuls.find? hasTrackingInfo with
    | none => exact addBusinessDays_self_le _ _
    | some sf =>
      simp only
      split
      · split
        · exact addBusinessDays_self_le _ _
        · exact subtractBusinessDays_le_self _ _
      · exact addBusinessDays_self_le _ _

/-- `markLastCurrent` only rewrites the `current`/`completed` flags, so
any projection insensitive to those flags is preserved. -/
theorem markLastCurrent_map_proj {α : Type} (f : TrackingEvent → α)
    (hf : ∀ e, f { e with current := true, completed := false } = f e) :
    ∀ l, (markLastCurrent l).map f = l.map f := by
  intro l
  induction l with
  | nil => rfl
  | cons e tail ih =>
    cases tail with
    | nil => simp [markLastCurrent, hf]
    | cons e2 es =>
      show f e :: (markLastCurrent (e2 :: es)).map f = f e :: (e2 :: es).map f
      rw [ih]

theorem markLastCurrent_eq_concat :
    ∀ (l : List TrackingEvent) (h : l ≠ []),
      markLastCurrent l
        = l.dropLast ++ [{ l.getLast h with current := true, completed := false }] := by
  intro l
  induction l with
  | nil => intro h; contradiction
  | cons e tail ih =>
    intro h
    cases tail with
    | nil => simp [markLastCurrent]
    | cons e2 es =>
      show e :: markLastCurrent (e2 :: es) = _
      rw [ih (by simp)]
      simp [List.getLast_cons]

theorem mem_markLastCurrent {l : List TrackingEvent} {e : TrackingEvent}
    (h : e ∈ markLastCurrent l) :
    ∃ e₀ ∈ l, e.status = e₀.status ∧ e.date = e₀.date ∧ e.isDelivered = e₀.isDelivered := by
  induction l with
  | nil => simp [markLastCurrent] at h
  | cons a tail ih =>
    cases tail with
    | nil =>
      simp only [markLastCurrent, List.mem_singleton] at h
      exact ⟨a, by simp, by simp [h]⟩
    | cons a2 es =>
      rcases (List.mem_cons).1 h with h1 | h2
      · exact ⟨a, by simp, by simp [h1]⟩
      · obtain ⟨e₀, hm, hp⟩ := ih h2
        exact ⟨e₀, List.mem_cons_of_mem _ hm, hp⟩

theorem mem_of_mem_takeWhile {α : Type} {p : α → Bool} :
    ∀ {l : List α} {a : α}, a ∈ l.takeWhile p → a ∈ l := by
  intro l
  induction l with
  | nil => intro a h; simp at h
  | cons x t ih =>
    intro a h
    rw [List.takeWhile_cons] at h
    by_cases hp : p x = true
    · simp only [hp, if_true] at h
      rcases (List.mem_cons).1 h with h1 | h2
      · simp [h1]
      · exact List.mem_cons_of_mem _ (ih h2)
    · simp only [hp] at h
      simp at h

theorem takeWhile_eq_take {α : Type} (p : α → Bool) :
    ∀ l : List α, l.takeWhile p = l.take (l.takeWhile p).length := by
  intro l
  induction l with
  | nil => rfl
  | cons x t ih =>
    rw [List.takeWhile_cons]
    by_cases hp : p x = true
    · simp only [hp, if_true, List.length_cons, List.take_succ_cons]
      rw [← ih]
    · simp [hp]

theorem map_snd_takeWhile (today : JSDate) :
    ∀ l : List (String × JSDate),
      (l.takeWhile (fun q => decide (q.2 ≤ today))).map (fun q => q.2)
        = (l.map (fun q => q.2)).takeWhile (fun d => decide (d ≤ today)) := by
  intro l
  induction l with
  | nil => rfl
  | cons q t ih =>
    rw [List.map_cons, List.takeWhile_cons, List.takeWhile_cons]
    by_cases hq : q.2 ≤ today
    · simp only [hq, decide_True, if_true, List.map_cons, ih]
    · simp [hq]

theorem map_date_eq_map_pair (l : List TrackingEvent) :
    l.map (fun e => e.date)
      = (l.map (fun e => (e.status, e.date))).map (fun q => q.2) := by
  rw [List.map_map]
  rfl

/-- Loop invariant of the event-emission loop: every emitted event is
completed, not current, not delivered, and dated no later than `today`. -/
theorem buildEvents_mem_flags (g : Nat → Nat) (today : JSDate)
    (sf : List String) (cp : Bool) :
    ∀ (ts : List EventTemplate) (i j : Nat) (cur : JSDate) (e : TrackingEvent),
      e ∈ (buildEvents g today sf cp ts i j cur).1 →
      e.completed = true ∧ e.current = false ∧ e.isDelivered = false ∧ e.date ≤ today := by
  intro ts
  induction ts with
  | nil => intro i j cur e h; simp [buildEvents] at h
  | cons t rest ih =>
    intro i j cur e h
    rw [buildEvents] at h
    split at h
    · simp at h
    next hlt =>
      rcases (List.mem_cons).1 h with h1 | h2
      · subst h1
        refine ⟨rfl, rfl, rfl, ?_⟩
        exact JSDate.not_lt.1 hlt
      · exact ih _ _ _ _ h2

/-- The statuses and dates of the emitted events are exactly the longest
not-after-`today` prefix of the computed event plan. -/
theorem buildEvents_map_pair (g : Nat → Nat) (today : JSDate)
    (sf : List String) (cp : Bool) :
    ∀ (ts : List EventTemplate) (i j : Nat) (cur : JSDate),
      ((buildEvents g today sf cp ts i j cur).1).map (fun e => (e.status, e.date))
        = (computedPairs ts i cur).takeWhile (fun q => decide (q.2 ≤ today)) := by
  intro ts
  induction ts with
  | nil => intro i j cur; rfl
  | cons t rest ih =>
    intro i j cur
    rw [buildEvents, computedPairs]
    simp only
    split
    next hlt =>
      have : ¬(nextEventDate t i cur ≤ today) := JSDate.not_le.2 hlt
      simp [List.takeWhile_cons, this]
    next hlt =>
      have : nextEventDate t i cur ≤ today := JSDate.not_lt.1 hlt
      simp only [List.map_cons, List.takeWhile_cons, this, decide_True, if_true]
      rw [ih]

theorem builtEvents_flags (g : Nat → Nat) (today o : JSDate) (city prov : String)
    (fuls : List Fulfillment) (custom : Option JSDate) (e : TrackingEvent)
    (h : e ∈ (builtEvents g today o city prov fuls custom).1) :
    e.completed = true ∧ e.current = false ∧ e.isDelivered = false ∧ e.date ≤ today := by
  simp only [builtEvents] at h
  exact buildEvents_mem_flags g today _ _ _ _ _ _ _ h

theorem builtEvents_pairs (g : Nat → Nat) (today o : JSDate) (city prov : String)
    (fuls : List Fulfillment) (custom : Option JSDate) :
    ((builtEvents g today o city prov fuls custom).1).map (fun e => (e.status, e.date))
      = (plannedPairs g o city prov fuls custom).takeWhile
          (fun q => decide (q.2 ≤ today)) := by
  simp only [builtEvents, plannedPairs]
  exact buildEvents_map_pair g today _ _ _ _ _ _

theorem synth_delivered_some (g : Nat → Nat) (today o : JSDate) (city prov : String)
    (fuls : List Fulfillment) (custom : Option JSDate) (dd0 : JSDate) :
    generateRealisticTrackingEventsWithFulfillment g today o city prov true (some dd0)
        fuls custom
      = (builtEvents g today o city prov fuls custom).1
        ++ [deliveredEvent g (builtEvents g today o city prov fuls custom).2 city prov
              dd0] := by
  simp [generateRealisticTrackingEventsWithFulfillment]

theorem synth_delivered_none (g : Nat → Nat) (today o : JSDate) (city prov : String)
    (fuls : List Fulfillment) (custom : Option JSDate) :
    generateRealisticTrackingEventsWithFulfillment g today o city prov true none
        fuls custom
      = (builtEvents g today o city prov fuls custom).1 := by
  simp [generateRealisticTrackingEventsWithFulfillment]

theorem synth_not_delivered (g : Nat → Nat) (today o : JSDate) (city prov : String)
    (dd : Option JSDate) (fuls : List Fulfillment) (custom : Option JSDate) :
    generateRealisticTrackingEventsWithFulfillment g today o city prov false dd
        fuls custom
      = if 0 < (builtEvents g today o city prov fuls custom).1.length then
          markLastCurrent (builtEvents g today o city prov fuls custom).1
        else (builtEvents g today o city prov fuls custom).1 := by
  cases dd <;> simp [generateRealisticTrackingEventsWithFulfillment, Nat.pos_iff_ne_zero]

/-- Every synthesized event is the Delivered event or carries the status
and computed date of an entry of the untruncated event plan. -/
theorem mem_synth_pair (g : Nat → Nat) (today o : JSDate) (city prov : String)
    (isDel : Bool) (dd : Option JSDate) (fuls : List Fulfillment)
    (custom : Option JSDate) (e : TrackingEvent)
    (he : e ∈ generateRealisticTrackingEventsWithFulfillment g today o city prov isDel
      dd fuls custom) :
    e.status = "Delivered" ∨
      (e.status, e.date) ∈ plannedPairs g o city prov fuls custom := by
  have hpairs : ∀ e₀, e₀ ∈ (builtEvents g today o city prov fuls custom).1 →
      (e₀.status, e₀.date) ∈ plannedPairs g o city prov fuls custom := by
    intro e₀ h₀
    have hm : (e₀.status, e₀.date)
        ∈ ((builtEvents g today o city prov fuls custom).1).map
            (fun e => (e.status, e.date)) :=
      List.mem_map_of_mem _ h₀
    rw [builtEvents_pairs] at hm
    exact mem_of_mem_takeWhile hm
  cases isDel with
  | true =>
    cases dd with
    | some dd0 =>
      rw [synth_delivered_some] at he
      rcases List.mem_append.1 he with h1 | h2
      · exact Or.inr (hpairs e h1)
      · left
        have : e = deliveredEvent g (builtEvents g today o city prov fuls custom).2
            city prov dd0 := by simpa using h2
        rw [this]
        rfl
    | none =>
      rw [synth_delivered_none] at he
      exact Or.inr (hpairs e he)
  | false =>
    rw [synth_not_delivered] at he
    split at he
    · obtain ⟨e₀, hm, hs, hd, _⟩ := mem_markLastCurrent he
      right
      rw [hs, hd]
      exact hpairs e₀ hm
    · exact Or.inr (hpairs e he)

/-- Every synthesized non-Delivered event is dated no later than the
synthesis moment. -/
theorem mem_synth_date_le (g : Nat → Nat) (today o : JSDate) (city prov : String)
    (isDel : Bool) (dd : Option JSDate) (fuls : List Fulfillment)
    (custom : Option JSDate) (e : TrackingEvent)
    (he : e ∈ generateRealisticTrackingEventsWithFulfillment g today o city prov isDel
      dd fuls custom)
    (hnd : e.isDelivered = false) : e.date ≤ today := by
  cases isDel with
  | true =>
    cases dd with
    | some dd0 =>
      rw [synth_delivered_some] at he
      rcases List.mem_append.1 he with h1 | h2
      · exact (builtEvents_flags g today o city prov fuls custom e h1).2.2.2
      · have : e = deliveredEvent g (builtEvents g today o city prov fuls custom).2
            city prov dd0 := by simpa using h2
        rw [this] at hnd
        simp [deliveredEvent] at hnd
    | none =>
      rw [synth_delivered_none] at he
      exact (builtEvents_flags g today o city prov fuls custom e he).2.2.2
  | false =>
    rw [synth_not_delivered] at he
    split at he
    · obtain ⟨e₀, hm, _, hd, _⟩ := mem_markLastCurrent he
      rw [hd]
      exact (builtEvents_flags g today o city prov fuls custom e₀ hm).2.2.2
    · exact (builtEvents_flags g today o city prov fuls custom e he).2.2.2

/-- The non-Delivered part of the output is, date for date, the longest
not-after-`today` prefix of the computed event-date plan. -/
theorem synth_filter_dates (g : Nat → Nat) (today o : JSDate) (city prov : String)
    (isDel : Bool) (dd : Option JSDate) (fuls : List Fulfillment)
    (custom : Option JSDate) :
    ((generateRealisticTrackingEventsWithFulfillment g today o city prov isDel dd fuls
        custom).filter (fun e => !e.isDelivered)).map (fun e => e.date)
      = (plannedDates g o city prov fuls custom).takeWhile
          (fun d => decide (d ≤ today)) := by
  have hE : ((builtEvents g today o city prov fuls custom).1).map (fun e => e.date)
      = (plannedDates g o city prov fuls custom).takeWhile
          (fun d => decide (d ≤ today)) := by
    rw [map_date_eq_map_pair, builtEvents_pairs, map_snd_takeWhile]
    rfl
  have hfE : ((builtEvents g today o city prov fuls custom).1).filter
      (fun e => !e.isDelivered) = (builtEvents g today o city prov fuls custom).1 := by
    rw [List.filter_eq_self]
    intro e he
    simp [(builtEvents_flags g today o city prov fuls custom e he).2.2.1]
  cases isDel with
  | true =>
    cases dd with
    | some dd0 =>
      rw [synth_delivered_some, List.filter_append]
      have hdel : ([deliveredEvent g (builtEvents g today o city prov fuls custom).2
          city prov dd0].filter (fun e => !e.isDelivered)) = [] := by
        simp [deliveredEvent]
      rw [hdel, List.append_nil, hfE, hE]
    | none =>
      rw [synth_delivered_none, hfE, hE]
  | false =>
    rw [synth_not_delivered]
    split
    · have hfm : (markLastCurrent
          ((builtEvents g today o city prov fuls custom).1)).filter
            (fun e => !e.isDelivered)
          = markLastCurrent ((builtEvents g today o city prov fuls custom).1) := by
        rw [List.filter_eq_self]
        intro e he
        obtain ⟨e₀, hm, _, _, hdel⟩ := mem_markLastCurrent he
        simp [hdel, (builtEvents_flags g today o city prov fuls custom e₀ hm).2.2.1]
      rw [hfm]
      rw [markLastCurrent_map_proj (fun e => e.date) (fun e => rfl), hE]
    · rw [hfE, hE]

/-- An entry of the untruncated event plan carries one of the ten fixed
statuses. -/
theorem plannedPairs_status (g : Nat → Nat) (o : JSDate) (city prov : String)
    (fuls : List Fulfillment) (custom : Option JSDate) (s : String) (d : JSDate)
    (h : (s, d) ∈ plannedPairs g o city prov fuls custom) :
    s = "Order Confirmed" ∨ s = "Order Processed" ∨ s = "Label Created" ∨
    s = "Package Picked Up" ∨ s = "Departed Origin Facility" ∨ s = "In Transit" ∨
    s = "Arrived at Sorting Facility" ∨ s = "Departed Sorting Facility" ∨
    s = "Arrived at Destination Facility" ∨ s = "Out for Delivery" := by
  simp only [plannedPairs, eventTemplates, computedPairs, nextEventDate, List.mem_cons,
    List.not_mem_nil, or_false, Prod.mk.injEq] at h
  tauto

/-- In the untruncated event plan, the Label Created entry carries the
computed `labelCreatedDate`. -/
theorem plannedPairs_label_date (g : Nat → Nat) (o : JSDate) (city prov : String)
    (fuls : List Fulfillment) (custom : Option JSDate) (d : JSDate)
    (h : ("Label Created", d) ∈ plannedPairs g o city prov fuls custom) :
    d = (computeLabelPickup g o fuls custom).1 := by
  simp only [plannedPairs, eventTemplates, computedPairs, nextEventDate, List.mem_cons,
    List.not_mem_nil, or_false, Prod.mk.injEq] at h
  rcases h with ⟨h1, h2⟩ | ⟨h1, h2⟩ | ⟨h1, h2⟩ | ⟨h1, h2⟩ | ⟨h1, h2⟩ | ⟨h1, h2⟩ |
    ⟨h1, h2⟩ | ⟨h1, h2⟩ | ⟨h1, h2⟩ | ⟨h1, h2⟩
  · exact absurd h1 (by decide)
  · exact absurd h1 (by decide)
  · exact h2
  · exact absurd h1 (by decide)
  · exact absurd h1 (by decide)
  · exact absurd h1 (by decide)
  · exact absurd h1 (by decide)
  · exact absurd h1 (by decide)
  · exact absurd h1 (by decide)
  · exact absurd h1 (by decide)

/-! ### Claims C2, C3, C9 -/

/-- C2: no emitted event has a date strictly after the synthesis moment
except the terminal Delivered event; date for date, the non-Delivered
output equals the longest not-after-today prefix of the computed event
plan (so once a computed date is future, no further non-Delivered events
are emitted); and when `isDelivered` holds with a supplied delivery date,
the Delivered event is appended last with that timestamp verbatim. -/
theorem C2_noFuture_spec (g : Nat → Nat) (today o : JSDate) (city prov : String)
    (isDel : Bool) (dd : Option JSDate) (fuls : List Fulfillment)
    (custom : Option JSDate) :
    (∀ e ∈ generateRealisticTrackingEventsWithFulfillment g today o city prov isDel dd
        fuls custom, e.isDelivered = false → e.date ≤ today) ∧
    (((generateRealisticTrackingEventsWithFulfillment g today o city prov isDel dd fuls
          custom).filter (fun e => !e.isDelivered)).map (fun e => e.date)
        = (plannedDates g o city prov fuls custom).takeWhile
            (fun d => decide (d ≤ today))) ∧
    (∀ dd0 : JSDate, isDel = true → dd = some dd0 →
      ∃ e, (generateRealisticTrackingEventsWithFulfillment g today o city prov isDel dd
          fuls custom).getLast? = some e ∧ e.status = "Delivered" ∧ e.date = dd0 ∧
        e.isDelivered = true ∧ e.completed = true) := by
  refine ⟨?_, synth_filter_dates g today o city prov isDel dd fuls custom, ?_⟩
  · intro e he hnd
    exact mem_synth_date_le g today o city prov isDel dd fuls custom e he hnd
  · intro dd0 hDel hdd
    subst hDel
    subst hdd
    rw [synth_delivered_some]
    exact ⟨deliveredEvent g (builtEvents g today o city prov fuls custom).2 city prov
      dd0, List.getLast?_concat _, rfl, rfl, rfl, rfl⟩

theorem C2_noFuture_spec_witness :
    ∃ e, (generateRealisticTrackingEventsWithFulfillment (fun _ => 0)
        { day := 100, tod := 0 } { day := 1, tod := 0 } "Dallas" "TX" true
        (some { day := 50, tod := 0 }) [] none).getLast? = some e ∧
      e.status = "Delivered" ∧ e.date = { day := 50, tod := 0 } ∧
      e.isDelivered = true ∧ e.completed = true :=
  (C2_noFuture_spec (fun _ => 0) { day := 100, tod := 0 } { day := 1, tod := 0 }
    "Dallas" "TX" true (some { day := 50, tod := 0 }) [] none).2.2
    { day := 50, tod := 0 } rfl rfl

/-- C3: at most one output event is current; a current event exists only
when the shipment is not delivered; when not delivered, the last event of
the truncated list is the in-flight marker (`completed = false`,
`current = true`) and all earlier events are completed and not current;
when delivered, no event is current and every non-Delivered event is
completed. -/
theorem C3_flags_spec (g : Nat → Nat) (today o : JSDate) (city prov : String)
    (isDel : Bool) (dd : Option JSDate) (fuls : List Fulfillment)
    (custom : Option JSDate) :
    ((generateRealisticTrackingEventsWithFulfillment g today o city prov isDel dd fuls
        custom).countP (fun e => e.current) ≤ 1) ∧
    (∀ e ∈ generateRealisticTrackingEventsWithFulfillment g today o city prov isDel dd
        fuls custom, e.current = true → isDel = false) ∧
    (isDel = false → ∀ e, (generateRealisticTrackingEventsWithFulfillment g today o city
        prov isDel dd fuls custom).getLast? = some e →
      e.completed = false ∧ e.current = true) ∧
    (isDel = false → ∀ e ∈ (generateRealisticTrackingEventsWithFulfillment g today o
        city prov isDel dd fuls custom).dropLast,
      e.completed = true ∧ e.current = false) ∧
    (isDel = true → ∀ e ∈ generateRealisticTrackingEventsWithFulfillment g today o city
        prov isDel dd fuls custom,
      e.current = false ∧ (e.isDelivered = false → e.completed = true)) := by
  have hcur : ∀ e ∈ (builtEvents g today o city prov fuls custom).1,
      e.current = false := fun e he =>
    (builtEvents_flags g today o city prov fuls custom e he).2.1
  have hcom : ∀ e ∈ (builtEvents g today o city prov fuls custom).1,
      e.completed = true := fun e he =>
    (builtEvents_flags g today o city prov fuls custom e he).1
  cases isDel with
  | true =>
    have hall : ∀ e ∈ generateRealisticTrackingEventsWithFulfillment g today o city
        prov true dd fuls custom,
        e.current = false ∧ (e.isDelivered = false → e.completed = true) := by
      intro e he
      cases dd with
      | some dd0 =>
        rw [synth_delivered_some] at he
        rcases List.mem_append.1 he with h1 | h2
        · exact ⟨hcur e h1, fun _ => hcom e h1⟩
        · have : e = deliveredEvent g (builtEvents g today o city prov fuls custom).2
              city prov dd0 := by simpa using h2
          rw [this]
          exact ⟨rfl, fun _ => rfl⟩
      | none =>
        rw [synth_delivered_none] at he
        exact ⟨hcur e he, fun _ => hcom e he⟩
    refine ⟨?_, ?_, ?_, ?_, fun _ => hall⟩
    · have : (generateRealisticTrackingEventsWithFulfillment g today o city prov true dd
          fuls custom).countP (fun e => e.current) = 0 := by
        rw [List.countP_eq_zero]
        intro e he
        simp [(hall e he).1]
      omega
    · intro e he hc
      exact absurd hc (by simp [(hall e he).1])
    · intro h
      exact absurd h (by simp)
    · intro h
      exact absurd h (by simp)
  | false =>
    rw [synth_not_delivered]
    by_cases hlen : 0 < (builtEvents g today o city prov fuls custom).1.length
    · rw [if_pos hlen]
      have hne : (builtEvents g today o city prov fuls custom).1 ≠ [] :=
        List.length_pos.1 hlen
      rw [markLastCurrent_eq_concat _ hne]
      have hdropmem : ∀ e ∈ ((builtEvents g today o city prov fuls custom).1).dropLast,
          e.completed = true ∧ e.current = false := by
        intro e he
        have := List.mem_of_mem_dropLast he
        exact ⟨hcom e this, hcur e this⟩
      refine ⟨?_, fun e _ _ => rfl, ?_, ?_, ?_⟩
      · rw [List.countP_append]
        have h0 : (((builtEvents g today o city prov fuls custom).1).dropLast).countP
            (fun e => e.current) = 0 := by
          rw [List.countP_eq_zero]
          intro e he
          simp [(hdropmem e he).2]
        rw [h0]
        simp [List.countP_cons]
      · intro _ e hLast
        rw [List.getLast?_concat] at hLast
        cases hLast
        exact ⟨rfl, rfl⟩
      · intro _ e he
        rw [List.dropLast_concat] at he
        exact hdropmem e he
      · intro h
        exact absurd h (by simp)
    · rw [if_neg hlen]
      have hnil : (builtEvents g today o city prov fuls custom).1 = [] := by
        cases h : (builtEvents g today o city prov fuls custom).1 with
        | nil => rfl
        | cons a l => rw [h] at hlen; simp at hlen
      rw [hnil]
      refine ⟨by simp, by simp, ?_, by simp, fun h => absurd h (by simp)⟩
      intro _ e hLast
      simp at hLast

theorem C3_flags_spec_witness :
    ∀ e ∈ generateRealisticTrackingEventsWithFulfillment (fun _ => 0)
        { day := 100, tod := 0 } { day := 1, tod := 0 } "Dallas" "TX" true none [] none,
      e.current = false ∧ (e.isDelivered = false → e.completed = true) :=
  (C3_flags_spec (fun _ => 0) { day := 100, tod := 0 } { day := 1, tod := 0 }
    "Dallas" "TX" true none [] none).2.2.2.2 rfl

/-- C9: with `isDelivered = true` but no delivery date, the output contains
no Delivered event, no event is current, and every event is completed and
has `isDelivered = false`. -/
theorem C9_delivered_noDate_spec (g : Nat → Nat) (today o : JSDate)
    (city prov : String) (fuls : List Fulfillment) (custom : Option JSDate) :
    (generateRealisticTrackingEventsWithFulfillment g today o city prov true none fuls
      custom).all (fun e =>
        (e.status != "Delivered") && e.completed && !e.current && !e.isDelivered)
      = true := by
  rw [List.all_eq_true]
  intro e he
  have he' := he
  rw [synth_delivered_none] at he'
  have hf := builtEvents_flags g today o city prov fuls custom e he'
  have hpm : (e.status, e.date) ∈ plannedPairs g o city prov fuls custom := by
    have hm : (e.status, e.date)
        ∈ ((builtEvents g today o city prov fuls custom).1).map
            (fun e => (e.status, e.date)) := List.mem_map_of_mem _ he'
    rw [builtEvents_pairs] at hm
    exact mem_of_mem_takeWhile hm
  have hs := plannedPairs_status g o city prov fuls custom e.status e.date hpm
  simp only [hf.1, hf.2.1, hf.2.2.1, Bool.not_false, Bool.and_true]
  rcases hs with h | h | h | h | h | h | h | h | h | h <;> rw [h] <;> decide

/-! ### Claim C7 -/

/-- C7: with a supplied custom pickup date, the Label Created date is the
supplied date, clamped to order date + 1 business day when the supplied
date precedes or equals the order creation date; every emitted Label
Created event carries exactly that date. -/
theorem C7_customPickup_clamp (g : Nat → Nat) (today o : JSDate) (city prov : String)
    (isDel : Bool) (dd : Option JSDate) (fuls : List Fulfillment) (c : JSDate) :
    (c ≤ o → (computeLabelPickup g o fuls (some c)).1 = addBusinessDays o 1) ∧
    (¬(c ≤ o) → (computeLabelPickup g o fuls (some c)).1 = c) ∧
    (∀ e ∈ generateRealisticTrackingEventsWithFulfillment g today o city prov isDel dd
        fuls (some c), e.status = "Label Created" →
      e.date = (computeLabelPickup g o fuls (some c)).1) := by
  refine ⟨?_, ?_, ?_⟩
  · intro h
    simp [computeLabelPickup, h]
  · intro h
    simp [computeLabelPickup, h]
  · intro e he hs
    rcases mem_synth_pair g today o city prov isDel dd fuls (some c) e he with hDel | hpm
    · rw [hs] at hDel
      exact absurd hDel (by decide)
    · rw [hs] at hpm
      exact plannedPairs_label_date g o city prov fuls (some c) e.date hpm

theorem C7_customPickup_clamp_witness :
    ({ day := 1, tod := 0 } : JSDate) ≤ { day := 1, tod := 0 } ∧
      (computeLabelPickup (fun _ => 0) { day := 1, tod := 0 } []
          (some { day := 1, tod := 0 })).1
        = addBusinessDays { day := 1, tod := 0 } 1 :=
  ⟨by decide,
   (C7_customPickup_clamp (fun _ => 0) { day := 100, tod := 0 } { day := 1, tod := 0 }
     "Dallas" "TX" false none [] { day := 1, tod := 0 }).1 (by decide)⟩

/-! ### Claim C1 -/

theorem JSDate.le_of_lt {a b : JSDate} (h : a < b) : a ≤ b := by
  rw [JSDate.lt_def] at h
  rw [JSDate.le_def]
  omega

/-- The computed `labelCreatedDate` never precedes the order date, in
every branch of the date-calculation block. -/
theorem computeLabelPickup_ge (g : Nat → Nat) (o : JSDate)
    (fuls : List Fulfillment) (custom : Option JSDate) :
    o ≤ (computeLabelPickup g o fuls custom).1 := by
  cases custom with
  | some c =>
    simp only [computeLabelPickup]
    split
    · exact addBusinessDays_self_le _ _
    next h => exact JSDate.le_of_lt (JSDate.not_le.1 h)
  | none =>
    simp only [computeLabelPickup]
    split
    · split
      · split
        · exact addBusinessDays_self_le _ _
        next h => exact JSDate.le_of_lt (JSDate.not_le.1 h)
      · exact addBusinessDays_self_le _ _
    · exact addBusinessDays_self_le _ _

/-- The running date sequence of fixed-date-free templates is a chain. -/
theorem chain'_computedPairs_noFixed :
    ∀ (ts : List EventTemplate) (i : Nat) (cur : JSDate),
      (∀ t ∈ ts, t.fixedDate = none) → 1 ≤ i →
      List.Chain' (fun a b : JSDate => a ≤ b)
        (cur :: (computedPairs ts i cur).map (fun q => q.2)) := by
  intro ts
  induction ts with
  | nil =>
    intro i cur _ _
    simp [computedPairs]
  | cons t rest ih =>
    intro i cur hfix hi
    simp only [computedPairs, List.map_cons]
    rw [List.chain'_cons]
    have hfd : t.fixedDate = none := hfix t (by simp)
    constructor
    · simp only [nextEventDate, hfd]
      rw [if_pos (by omega : 0 < i)]
      exact addBusinessDays_self_le _ _
    · have h2 := ih (i + 1) (nextEventDate t i cur)
        (fun t' ht' => hfix t' (List.mem_cons_of_mem _ ht')) (by omega)
      exact h2

theorem eraseIdx_one_take_sublist {α : Type} (l : List α) (k : Nat) :
    List.Sublist ((l.take k).eraseIdx 1) (l.eraseIdx 1) := by
  match l, k with
  | [], k => simp
  | a :: t, 0 => simp
  | [a], k + 1 => simp
  | a :: b :: t, 1 =>
    show List.Sublist [a] (a :: t)
    exact List.Sublist.cons₂ a (List.nil_sublist t)
  | a :: b :: t, k + 2 =>
    show List.Sublist (a :: t.take k) (a :: t)
    exact List.Sublist.cons₂ a (List.take_sublist k t)

/-- C1 (counterexample): with no custom pickup date, no fulfillments, an
order created on a Monday and random draws choosing 2 business days for
Order Processed but 1 for Label Created, the produced dates decrease from
the second event to the third. -/
theorem C1_counterexample :
    ¬ ((((generateRealisticTrackingEventsWithFulfillment
          (fun n => if n == 3 then 1 else 0) { day := 1000, tod := 0 }
          { day := 1, tod := 0 } "Dallas" "TX" false none [] none).filter
          (fun e => !e.isDelivered)).map (fun e => e.date)).getD 1 { day := 0, tod := 0 }
        ≤ (((generateRealisticTrackingEventsWithFulfillment
          (fun n => if n == 3 then 1 else 0) { day := 1000, tod := 0 }
          { day := 1, tod := 0 } "Dallas" "TX" false none [] none).filter
          (fun e => !e.isDelivered)).map (fun e => e.date)).getD 2
          { day := 0, tod := 0 }) ∧
    (((generateRealisticTrackingEventsWithFulfillment
        (fun n => if n == 3 then 1 else 0) { day := 1000, tod := 0 }
        { day := 1, tod := 0 } "Dallas" "TX" false none [] none).filter
        (fun e => !e.isDelivered)).map (fun e => e.date)).length = 10 := by
  decide

/-- C1 (amended): the underlying dates of the non-Delivered output are
non-decreasing except possibly from the second event (Order Processed) to
the third (Label Created): deleting the second event yields a
non-decreasing date sequence, and the first two dates are themselves
ordered.  (Order Processed and Label Created are offset from the order
date by independent random draws, so their relative order is not
guaranteed; every other adjacent pair is non-decreasing.) -/
theorem C1_dates_spec (g : Nat → Nat) (today o : JSDate) (city prov : String)
    (isDel : Bool) (dd : Option JSDate) (fuls : List Fulfillment)
    (custom : Option JSDate) (ds : List JSDate)
    (hds : ds = ((generateRealisticTrackingEventsWithFulfillment g today o city prov
        isDel dd fuls custom).filter (fun e => !e.isDelivered)).map (fun e => e.date)) :
    List.Chain' (fun a b : JSDate => a ≤ b) (ds.eraseIdx 1) ∧
      List.Chain' (fun a b : JSDate => a ≤ b) (ds.take 2) := by
  have heq : plannedDates g o city prov fuls custom
      = o
        :: addBusinessDays o (g (computeLabelPickup g o fuls custom).2.2 % 2 + 1)
        :: (computeLabelPickup g o fuls custom).1
        :: (computeLabelPickup g o fuls custom).2.1
        :: (computedPairs
            [{ status := "Departed Origin Facility", location := some "Origin Facility",
               fixedDate := none, businessDaysFromPrevious := some 1 },
             { status := "In Transit", location := none, fixedDate := none,
               businessDaysFromPrevious := some (getRandomBusinessDaysInterval g
                 ((computeLabelPickup g o fuls custom).2.2 + 1)) },
             { status := "Arrived at Sorting Facility", location := none,
               fixedDate := none,
               businessDaysFromPrevious := some (getRandomBusinessDaysInterval g
                 ((computeLabelPickup g o fuls custom).2.2 + 2)) },
             { status := "Departed Sorting Facility", location := none,
               fixedDate := none,
               businessDaysFromPrevious := some (getRandomBusinessDaysInterval g
                 ((computeLabelPickup g o fuls custom).2.2 + 3)) },
             { status := "Arrived at Destination Facility",
               location := some ((lookupStateFacilities prov).getD
                 (g 0 % (lookupStateFacilities prov).length) ""),
               fixedDate := none,
               businessDaysFromPrevious := some (getRandomBusinessDaysInterval g
                 ((computeLabelPickup g o fuls custom).2.2 + 4)) },
             { status := "Out for Delivery", location := some (city ++ ", " ++ prov),
               fixedDate := none,
               businessDaysFromPrevious := some (getRandomBusinessDaysInterval g
                 ((computeLabelPickup g o fuls custom).2.2 + 5)) }] 4
            (computeLabelPickup g o fuls custom).2.1).map (fun q => q.2) := rfl
  have htail : List.Chain' (fun a b : JSDate => a ≤ b)
      ((computeLabelPickup g o fuls custom).2.1
        :: (computedPairs
            [{ status := "Departed Origin Facility", location := some "Origin Facility",
               fixedDate := none, businessDaysFromPrevious := some 1 },
             { status := "In Transit", location := none, fixedDate := none,
               businessDaysFromPrevious := some (getRandomBusinessDaysInterval g
                 ((computeLabelPickup g o fuls custom).2.2 + 1)) },
             { status := "Arrived at Sorting Facility", location := none,
               fixedDate := none,
               businessDaysFromPrevious := some (getRandomBusinessDaysInterval g
                 ((computeLabelPickup g o fuls custom).2.2 + 2)) },
             { status := "Departed Sorting Facility", location := none,
               fixedDate := none,
               businessDaysFromPrevious := some (getRandomBusinessDaysInterval g
                 ((computeLabelPickup g o fuls custom).2.2 + 3)) },
             { status := "Arrived at Destination Facility",
               location := some ((lookupStateFacilities prov).getD
                 (g 0 % (lookupStateFacilities prov).length) ""),
               fixedDate := none,
               businessDaysFromPrevious := some (getRandomBusinessDaysInterval g
                 ((computeLabelPickup g o fuls custom).2.2 + 4)) },
             { status := "Out for Delivery", location := some (city ++ ", " ++ prov),
               fixedDate := none,
               businessDaysFromPrevious := some (getRandomBusinessDaysInterval g
                 ((computeLabelPickup g o fuls custom).2.2 + 5)) }] 4
            (computeLabelPickup g o fuls custom).2.1).map (fun q => q.2)) := by
    apply chain'_computedPairs_noFixed
    · intro t ht
      fin_cases ht <;> rfl
    · omega
  have hchainE : List.Chain' (fun a b : JSDate => a ≤ b)
      ((plannedDates g o city prov fuls custom).eraseIdx 1) := by
    rw [heq]
    rw [show ∀ (x0 x1 : JSDate) (r : List JSDate),
        (x0 :: x1 :: r).eraseIdx 1 = x0 :: r from fun _ _ _ => rfl]
    rw [List.chain'_cons]
    refine ⟨computeLabelPickup_ge g o fuls custom, ?_⟩
    rw [List.chain'_cons]
    exact ⟨computeLabelPickup_le g o fuls custom, htail⟩
  have hchain2 : List.Chain' (fun a b : JSDate => a ≤ b)
      ((plannedDates g o city prov fuls custom).take 2) := by
    rw [heq]
    rw [show ∀ (x0 x1 : JSDate) (r : List JSDate),
        (x0 :: x1 :: r).take 2 = [x0, x1] from fun _ _ _ => rfl]
    rw [List.chain'_pair]
    exact addBusinessDays_self_le _ _
  subst hds
  rw [synth_filter_dates, takeWhile_eq_take]
  constructor
  · exact hchainE.sublist (eraseIdx_one_take_sublist _ _)
  · refine hchain2.sublist ?_
    rw [List.take_take]
    rw [show min 2 (((plannedDates g o city prov fuls custom).takeWhile
        (fun d => decide (d ≤ today))).length)
      = min (min 2 (((plannedDates g o city prov fuls custom).takeWhile
        (fun d => decide (d ≤ today))).length)) 2 from by omega]
    rw [← List.take_take]
    exact List.take_sublist _ _

theorem C1_dates_spec_witness :
    List.Chain' (fun a b : JSDate => a ≤ b)
      (((((generateRealisticTrackingEventsWithFulfillment (fun _ => 0)
          { day := 1000, tod := 0 } { day := 1, tod := 0 } "Dallas" "TX" false none []
          none).filter (fun e => !e.isDelivered)).map (fun e => e.date)).eraseIdx 1)) ∧
    List.Chain' (fun a b : JSDate => a ≤ b)
      ((((generateRealisticTrackingEventsWithFulfillment (fun _ => 0)
          { day := 1000, tod := 0 } { day := 1, tod := 0 } "Dallas" "TX" false none []
          none).filter (fun e => !e.isDelivered)).map (fun e => e.date)).take 2) :=
  C1_dates_spec (fun _ => 0) { day := 1000, tod := 0 } { day := 1, tod := 0 } "Dallas"
    "TX" false none [] none _ rfl

/-! ### Claim C8 -/

/-- C8: `validatePickupDate` is invalid exactly when a pickup date is
supplied and, at day granularity, it precedes the order creation date,
exceeds today plus one calendar year, or precedes today minus two
calendar years; an invalid result always carries an error message; and
when the effective pickup date is invalid, the create-status-page
operation returns an error (no page is produced or stored, and synthesis
is not reached). -/
theorem C8_validate_spec (g : Nat → Nat) (today : JSDate) (order : OrderData)
    (meta : Option ReplacementMeta) (tn : String) (pickup : Option JSDate) :
    ((validatePickupDate today pickup order.createdAt).isValid = false ↔
      ∃ p, pickup = some p ∧ (p.day < order.createdAt.day ∨
        p.day > setFullYearShift today.day 1 ∨
        p.day < setFullYearShift today.day (-2))) ∧
    ((validatePickupDate today pickup order.createdAt).isValid = false →
      ((validatePickupDate today pickup order.createdAt).error).isSome = true) ∧
    (∀ (rep : Bool) (lbl : Option JSDate),
      replacementMatch meta (getMainTrackingNumber order.fulfillments) tn
          = some (rep, lbl) →
      (validatePickupDate today (if rep && lbl.isSome then lbl else pickup)
          order.createdAt).isValid = false →
      ∃ msg, createStatusPageCore g today order meta tn pickup
          = Except.error msg) := by
  refine ⟨?_, ?_, ?_⟩
  · cases pickup with
    | none => simp [validatePickupDate]
    | some p =>
      simp only [validatePickupDate]
      split_ifs with h1 h2 h3
      · exact ⟨fun _ => ⟨p, rfl, Or.inl h1⟩, fun _ => rfl⟩
      · exact ⟨fun _ => ⟨p, rfl, Or.inr (Or.inl h2)⟩, fun _ => rfl⟩
      · exact ⟨fun _ => ⟨p, rfl, Or.inr (Or.inr h3)⟩, fun _ => rfl⟩
      · refine ⟨fun h => absurd h (by simp), fun h => ?_⟩
        obtain ⟨p', hp', hc⟩ := h
        cases hp'
        omega
  · cases pickup with
    | none => simp [validatePickupDate]
    | some p =>
      simp only [validatePickupDate]
      split_ifs <;> simp
  · intro rep lbl hmatch hval
    refine ⟨(validatePickupDate today (if rep && lbl.isSome then lbl else pickup)
      order.createdAt).error.getD "", ?_⟩
    simp only [createStatusPageCore, hmatch]
    rw [if_pos hval]

theorem C8_validate_spec_witness :
    replacementMatch none
        (getMainTrackingNumber
          [⟨some "T1", [], { day := 201, tod := 0 }⟩]) "T1" = some (false, none) ∧
    (validatePickupDate { day := 20000, tod := 0 }
        (if (false : Bool) && (none : Option JSDate).isSome then none
          else some { day := 100, tod := 0 })
        ({ day := 200, tod := 0 } : JSDate)).isValid = false ∧
    ∃ msg, createStatusPageCore (fun _ => 0) { day := 20000, tod := 0 }
        ⟨{ day := 200, tod := 0 }, "Dallas", "TX", false, none,
          [⟨some "T1", [], { day := 201, tod := 0 }⟩]⟩
        none "T1" (some { day := 100, tod := 0 }) = Except.error msg :=
  ⟨by decide, by decide,
   (C8_validate_spec (fun _ => 0) { day := 20000, tod := 0 }
     ⟨{ day := 200, tod := 0 }, "Dallas", "TX", false, none,
       [⟨some "T1", [], { day := 201, tod := 0 }⟩]⟩
     none "T1" (some { day := 100, tod := 0 })).2.2 false none (by decide) (by decide)⟩

end Tracking
